import Mathlib

/-!
Verification of the intelligent-retail-analytics-engine repository.

The development shallowly embeds the Python code of the repository:

* `api/index.py` and `vercel_app.py` (the two FastAPI mock-dashboard
  applications, namespaces `ApiIndex` and `VercelApp`),
* `scripts/setup_enhanced_tables.py` (`SetupTables`),
* `src/api/main.py` (`SecurityUtils`: JWT and password hashing),
* `debug_utils.py` (`DebugUtils`: `SafeAPIResult`, `safe_api_call`,
  magic-number framing).

Python `str` values are modelled as Lean `String`s, `bytes` as `List Nat`
(each entry < 256), JSON-serialisable values as the inductive `Json` with
rational numbers standing for Python's numeric literals (every arithmetic
operation performed by the embedded code is exact in binary floating point,
so `Rat` agrees with Python's `float` on all values that actually occur).
`datetime.now().isoformat()` is modelled by passing the timestamp string as
an explicit parameter.  Fallible code returns `Except`/`Option`.
-/

/-! ### Python string primitives

`str.replace(old, new)` replaces every non-overlapping occurrence of `old`,
scanning left to right.  It is modelled on `List Char` with an explicit fuel
argument (the length of the string) so that the definition is structurally
recursive and computable by the kernel.
-/

/-- Boolean test that `pat` is a leading segment of the second list. -/
def startsWithL : List Char → List Char → Bool
  | [], _ => true
  | _ :: _, [] => false
  | p :: ps, c :: cs => p == c && startsWithL ps cs

/-- Fuel-indexed worker for Python `str.replace`: at each position, if the
(nonempty) pattern matches, emit the replacement and skip the match,
otherwise keep one character and continue. -/
def pyReplaceAux (pat rep : List Char) : Nat → List Char → List Char
  | 0, s => s
  | _ + 1, [] => []
  | fuel + 1, c :: rest =>
    if !pat.isEmpty && startsWithL pat (c :: rest) then
      rep ++ pyReplaceAux pat rep fuel ((c :: rest).drop pat.length)
    else
      c :: pyReplaceAux pat rep fuel rest

/-- Python `str.replace` on character lists. -/
def pyReplaceL (pat rep s : List Char) : List Char :=
  pyReplaceAux pat rep s.length s

/-- Python `s.replace(old, new)` on strings. -/
def pyReplace (s old new : String) : String :=
  ⟨pyReplaceL old.data new.data s.data⟩

/-- Boolean substring test (`pat in s` for Python strings). -/
def containsSub (pat : List Char) : List Char → Bool
  | [] => startsWithL pat []
  | c :: rest => startsWithL pat (c :: rest) || containsSub pat rest

/-- Newline-join of a list of lines: a Python multi-line string literal is
the `joinLines` of the list of its lines. -/
def joinLines : List String → String
  | [] => ""
  | [l] => l
  | l :: ls => l ++ "\n" ++ joinLines ls

/-! ### JSON values

Python dict/list/str/number values returned by the HTTP handlers.  Numbers
are rationals; every number the embedded code computes is exact in floating
point (integer sums and divisions with exact results), so `Rat` coincides
with Python's numeric semantics on all values that occur.
-/

inductive Json where
  | str (s : String) : Json
  | num (q : Rat) : Json
  | bool (b : Bool) : Json
  | arr (elems : List Json) : Json
  | obj (fields : List (String × Json)) : Json

/-- First-match association-list lookup: access on a Python dict whose keys
are unique. -/
def lookupA {α : Type} (k : String) : List (String × α) → Option α
  | [] => none
  | (k2, v) :: rest => if k2 = k then some v else lookupA k rest

/-- Python `d[k] = v`: overwrite the first binding of `k` in place, or append
a new binding at the end (dict insertion order). -/
def setKeyA {α : Type} (l : List (String × α)) (k : String) (v : α) :
    List (String × α) :=
  match l with
  | [] => [(k, v)]
  | (k2, v2) :: rest => if k2 = k then (k, v) :: rest else (k2, v2) :: setKeyA rest k v

/-- Drop the `"timestamp"` field of a JSON object (used to compare two
responses of the same endpoint taken at different times). -/
def dropTimestamp (j : Json) : Json :=
  match j with
  | .obj fields => .obj (fields.filter (fun f => !(f.1 == "timestamp")))
  | j => j

/-! ### Mock data

`MOCK_DASHBOARD_DATA` and `MOCK_PRODUCT_DATA`, hardcoded identically in both
`api/index.py` (lines 34-56) and `vercel_app.py` (lines 35-57).
-/

namespace Mock

def MOCK_DASHBOARD_DATA : Json :=
  .obj [
    ("total_products", .num 1250),
    ("total_revenue", .num 450000.00),
    ("active_users", .num 890),
    ("conversion_rate", .num 3.2),
    ("top_categories", .arr [
      .obj [("name", .str "Electronics"), ("revenue", .num 125000),
            ("growth", .num 12.5)],
      .obj [("name", .str "Clothing"), ("revenue", .num 98000),
            ("growth", .num 8.3)],
      .obj [("name", .str "Home & Garden"), ("revenue", .num 87000),
            ("growth", .num 15.2)]]),
    ("recent_insights", .arr [
      .str "Electronics category showing 12.5% growth",
      .str "Customer satisfaction improved by 8.3%",
      .str "New product recommendations increased conversion by 15%"])]

/-- An entry of `MOCK_PRODUCT_DATA`: each element is a dict with exactly
these six keys. -/
structure Product where
  id : Nat
  name : String
  category : String
  price : Rat
  revenue : Rat
  units_sold : Nat

def MOCK_PRODUCT_DATA : List Product :=
  [⟨1, "iPhone 15", "Electronics", 999.99, 25000, 100⟩,
   ⟨2, "MacBook Pro", "Electronics", 2499.99, 45000, 75⟩,
   ⟨3, "Nike Air Max", "Clothing", 129.99, 15000, 200⟩,
   ⟨4, "Garden Tools Set", "Home & Garden", 89.99, 12000, 150⟩]

def Product.toJson (p : Product) : Json :=
  .obj [("id", .num p.id), ("name", .str p.name), ("category", .str p.category),
        ("price", .num p.price), ("revenue", .num p.revenue),
        ("units_sold", .num p.units_sold)]

/-- Value of a `categories[cat]` entry built by the `test_categories`
handlers: `{'total_revenue': ..., 'products': ..., 'avg_price': ...}`. -/
structure CatStats where
  total_revenue : Rat
  products : Nat
  avg_price : Rat

/-- Apply `f` to the first entry bound to `k` (in-place dict mutation). -/
def updateA {α : Type} (l : List (String × α)) (k : String) (f : α → α) :
    List (String × α) :=
  match l with
  | [] => []
  | (k2, v) :: rest => if k2 = k then (k2, f v) :: rest else (k2, v) :: updateA rest k f

/-- Loop body of the `test_categories` handlers: insert a zero entry for an
unseen category, then add the product's revenue, bump the count and recompute
`avg_price = total_revenue / products`. -/
def categoriesStep (m : List (String × CatStats)) (p : Product) :
    List (String × CatStats) :=
  let m2 := if (lookupA p.category m).isSome then m else m ++ [(p.category, ⟨0, 0, 0⟩)]
  updateA m2 p.category (fun st =>
    let tr := st.total_revenue + p.revenue
    let n := st.products + 1
    ⟨tr, n, tr / (n : Rat)⟩)

def categoriesOf (ps : List Product) : List (String × CatStats) :=
  ps.foldl categoriesStep []

def CatStats.toJson (c : CatStats) : Json :=
  .obj [("total_revenue", .num c.total_revenue), ("products", .num c.products),
        ("avg_price", .num c.avg_price)]

def categoriesJson (ps : List Product) : Json :=
  .obj ((categoriesOf ps).map (fun e => (e.1, CatStats.toJson e.2)))

end Mock

/-! ### api/index.py — FastAPI application

JSON endpoints (lines 1114-1206) and the root HTML handler (lines 1085-1112).
Each response embeds `datetime.now().isoformat()`; the handlers receive that
timestamp string as the parameter `now`.  The try-bodies of the JSON handlers
consist of literal dict construction and cannot raise, so the handlers are
modelled by their try-branch.
-/

namespace ApiIndex

open Mock

/-- GET `/api/test/dashboard` (api/index.py line 1114). -/
def test_dashboard (now : String) : Json :=
  .obj [("status", .str "success"), ("timestamp", .str now),
        ("data", MOCK_DASHBOARD_DATA),
        ("message", .str "Dashboard data retrieved successfully")]

/-- GET `/api/test/products` (api/index.py line 1136). -/
def test_products (now : String) : Json :=
  .obj [("status", .str "success"), ("timestamp", .str now),
        ("data", .arr (MOCK_PRODUCT_DATA.map Product.toJson)),
        ("total_products", .num (MOCK_PRODUCT_DATA.length : Rat)),
        ("message", .str "Product performance data retrieved successfully")]

/-- GET `/api/test/categories` (api/index.py line 1155). -/
def test_categories (now : String) : Json :=
  .obj [("status", .str "success"), ("timestamp", .str now),
        ("data", categoriesJson MOCK_PRODUCT_DATA),
        ("message", .str "Category analysis completed successfully")]

/-- GET `/api/test/health` (api/index.py line 1182). -/
def test_health (now : String) : Json :=
  .obj [("status", .str "healthy"), ("timestamp", .str now),
        ("version", .str "3.0.0"),
        ("quality_ready", .bool true),
        ("quality_score", .str "Excellent (95-98%)"),
        ("system_metrics", .obj [
          ("uptime", .str "99.9%"),
          ("response_time", .str "< 2 seconds"),
          ("memory_usage", .str "250MB"),
          ("active_connections", .num 1)]),
        ("message", .str "System is healthy and high-quality!")]

def genFallbackPre : String :=
  "\n"
  ++ "<!DOCTYPE html>\n"
  ++ "<html>\n"
  ++ "<head><title>Intelligent Retail Analytics Engine</title></head>\n"
  ++ "<body style=\"font-family: Arial, sans-serif; text-align: center; padding: 50px;\">\n"
  ++ "    <h1>🏆 Intelligent Retail Analytics Engine v3.0</h1>\n"
  ++ "    <p>High-Quality BigQuery AI Solution</p>\n"
  ++ "    <p>Status: System Online</p>\n"
  ++ "    <p>Quality Score: Excellent (95-98%)</p>\n"
  ++ "    <div style=\"margin: 20px 0;\">\n"
  ++ "        <a href=\"/api/test/dashboard\" style=\"background: #3498db; color: white; padding: 10px 20px; text-decoration: none; border-radius: 5px;\">Test Dashboard API</a>\n"
  ++ "    </div>\n"
  ++ "    <p>If you see this page, the system is working correctly!</p>\n"
  ++ "    <p>Error in HTML generation: "

def genFallbackPost : String :=
  "</p>\n"
  ++ "</body>\n"
  ++ "</html>\n"
  ++ ""

def homeFallbackPre : String :=
  "\n"
  ++ "        <!DOCTYPE html>\n"
  ++ "        <html>\n"
  ++ "        <head><title>Intelligent Retail Analytics Engine</title></head>\n"
  ++ "        <body style=\"font-family: Arial, sans-serif; text-align: center; padding: 50px;\">\n"
  ++ "            <h1>🏆 Intelligent Retail Analytics Engine v3.0</h1>\n"
  ++ "            <p>High-Quality BigQuery AI Solution</p>\n"
  ++ "            <p>Status: System Online</p>\n"
  ++ "            <p>Quality Score: Excellent (95-98%)</p>\n"
  ++ "            <div style=\"margin: 20px 0;\">\n"
  ++ "                <a href=\"/api/test/dashboard\" style=\"background: #3498db; color: white; padding: 10px 20px; text-decoration: none; border-radius: 5px;\">Test Dashboard API</a>\n"
  ++ "            </div>\n"
  ++ "            <p>If you see this page, the system is working correctly!</p>\n"
  ++ "            <p>Error: "

def homeFallbackPost : String :=
  "</p>\n"
  ++ "        </body>\n"
  ++ "        </html>\n"
  ++ "        "

/-- generate_html_page (api/index.py lines 58-1083): the try-branch builds a
large f-string page; its outcome (the rendered page, or the message of an
exception raised while building it) is the `render` parameter.  The
except-branch returns the fallback page with `str(e)` spliced in. -/
def generate_html_page (render : Except String String) : String :=
  match render with
  | .ok html => html
  | .error e => genFallbackPre ++ e ++ genFallbackPost

/-- home (api/index.py lines 1085-1112): calls `generate_html_page`; the
parameter is the outcome of that call (`Except.error e` when it raises an
exception whose `str` is `e`).  An `Except.error` result value would model an
exception propagating out of `home` itself. -/
def home (callResult : Except String String) : Except String String :=
  match callResult with
  | .ok html => .ok html
  | .error e => .ok (homeFallbackPre ++ e ++ homeFallbackPost)

end ApiIndex

/-! ### vercel_app.py — FastAPI application

The same four JSON endpoints (lines 308-364, no try/except) and the root
handler (lines 297-306), which serves `HTML_TEMPLATE` after a chain of
`str.replace` calls.
-/

namespace VercelApp

open Mock

/-- GET `/api/test/dashboard` (vercel_app.py line 308). -/
def test_dashboard (now : String) : Json :=
  .obj [("status", .str "success"), ("timestamp", .str now),
        ("data", MOCK_DASHBOARD_DATA),
        ("message", .str "Dashboard data retrieved successfully")]

/-- GET `/api/test/products` (vercel_app.py line 318). -/
def test_products (now : String) : Json :=
  .obj [("status", .str "success"), ("timestamp", .str now),
        ("data", .arr (MOCK_PRODUCT_DATA.map Product.toJson)),
        ("total_products", .num (MOCK_PRODUCT_DATA.length : Rat)),
        ("message", .str "Product performance data retrieved successfully")]

/-- GET `/api/test/categories` (vercel_app.py line 329). -/
def test_categories (now : String) : Json :=
  .obj [("status", .str "success"), ("timestamp", .str now),
        ("data", categoriesJson MOCK_PRODUCT_DATA),
        ("message", .str "Category analysis completed successfully")]

/-- GET `/api/test/health` (vercel_app.py line 348). -/
def test_health (now : String) : Json :=
  .obj [("status", .str "healthy"), ("timestamp", .str now),
        ("version", .str "3.0.0"),
        ("competition_ready", .bool true),
        ("win_probability", .str "95-98%"),
        ("system_metrics", .obj [
          ("uptime", .str "99.9%"),
          ("response_time", .str "< 2 seconds"),
          ("memory_usage", .str "250MB"),
          ("active_connections", .num 1)]),
        ("message", .str "System is healthy and competition-ready!")]

/-- HTML_TEMPLATE (vercel_app.py lines 59-295), as the list of its lines;
the Python literal is `joinLines templateLines`. -/
def templateLines : List String := [
  "",
  "<!DOCTYPE html>",
  "<html lang=\"en\">",
  "<head>",
  "    <meta charset=\"UTF-8\">",
  "    <meta name=\"viewport\" content=\"width=device-width, initial-scale=1.0\">",
  "    <title>🏆 Intelligent Retail Analytics Engine v3.0 - Vercel</title>",
  "    <style>",
  "        * \x7b margin: 0; padding: 0; box-sizing: border-box; \x7d",
  "        body \x7b",
  "            font-family: \x27Segoe UI\x27, Tahoma, Geneva, Verdana, sans-serif;",
  "            background: linear-gradient(135deg, #667eea 0%, #764ba2 100%);",
  "            min-height: 100vh; color: #333;",
  "        \x7d",
  "        .container \x7b max-width: 1200px; margin: 0 auto; padding: 20px; \x7d",
  "        .header \x7b",
  "            text-align: center; background: rgba(255, 255, 255, 0.95);",
  "            padding: 30px; border-radius: 15px; margin-bottom: 30px;",
  "            box-shadow: 0 10px 30px rgba(0,0,0,0.1);",
  "        \x7d",
  "        .header h1 \x7b color: #2c3e50; font-size: 2.5em; margin-bottom: 10px; \x7d",
  "        .header p \x7b color: #7f8c8d; font-size: 1.2em; \x7d",
  "        .competition-badge \x7b",
  "            background: linear-gradient(45deg, #ff6b6b, #ee5a24);",
  "            color: white; padding: 10px 20px; border-radius: 25px;",
  "            display: inline-block; margin: 10px 0; font-weight: bold;",
  "        \x7d",
  "        .dashboard-grid \x7b",
  "            display: grid; grid-template-columns: repeat(auto-fit, minmax(300px, 1fr));",
  "            gap: 20px; margin-bottom: 30px;",
  "        \x7d",
  "        .card \x7b",
  "            background: rgba(255, 255, 255, 0.95); border-radius: 15px;",
  "            padding: 25px; box-shadow: 0 10px 30px rgba(0,0,0,0.1);",
  "            transition: transform 0.3s ease;",
  "        \x7d",
  "        .card:hover \x7b transform: translateY(-5px); \x7d",
  "        .card h3 \x7b color: #2c3e50; margin-bottom: 15px; font-size: 1.3em; \x7d",
  "        .metric \x7b font-size: 2em; font-weight: bold; color: #3498db; margin-bottom: 5px; \x7d",
  "        .metric-label \x7b color: #7f8c8d; font-size: 0.9em; \x7d",
  "        .insights-list \x7b list-style: none; padding: 0; \x7d",
  "        .insights-list li \x7b",
  "            background: #f8f9fa; margin: 5px 0; padding: 10px;",
  "            border-radius: 8px; border-left: 4px solid #3498db;",
  "        \x7d",
  "        .test-section \x7b",
  "            background: rgba(255, 255, 255, 0.95); border-radius: 15px;",
  "            padding: 25px; margin-bottom: 20px;",
  "            box-shadow: 0 10px 30px rgba(0,0,0,0.1);",
  "        \x7d",
  "        .test-section h2 \x7b color: #2c3e50; margin-bottom: 20px; font-size: 1.8em; \x7d",
  "        .btn \x7b",
  "            background: linear-gradient(45deg, #3498db, #2980b9);",
  "            color: white; border: none; padding: 12px 25px;",
  "            border-radius: 8px; cursor: pointer; font-size: 1em;",
  "            margin: 5px; transition: all 0.3s ease;",
  "        \x7d",
  "        .btn:hover \x7b transform: translateY(-2px); box-shadow: 0 5px 15px rgba(0,0,0,0.2); \x7d",
  "        .result-box \x7b",
  "            background: #f8f9fa; border: 1px solid #dee2e6;",
  "            border-radius: 8px; padding: 15px; margin: 10px 0;",
  "            font-family: \x27Courier New\x27, monospace; white-space: pre-wrap;",
  "        \x7d",
  "        .status-indicator \x7b",
  "            display: inline-block; width: 12px; height: 12px;",
  "            border-radius: 50%; margin-right: 8px;",
  "        \x7d",
  "        .status-online \x7b background: #27ae60; \x7d",
  "        .status-offline \x7b background: #e74c3c; \x7d",
  "        .feature-list \x7b",
  "            display: grid; grid-template-columns: repeat(auto-fit, minmax(250px, 1fr));",
  "            gap: 15px; margin: 20px 0;",
  "        \x7d",
  "        .feature-item \x7b",
  "            background: #f8f9fa; padding: 15px; border-radius: 8px;",
  "            border-left: 4px solid #3498db;",
  "        \x7d",
  "        .feature-item h4 \x7b color: #2c3e50; margin-bottom: 5px; \x7d",
  "        .feature-item p \x7b color: #7f8c8d; font-size: 0.9em; \x7d",
  "        .vercel-badge \x7b",
  "            background: linear-gradient(45deg, #000000, #333333);",
  "            color: white; padding: 8px 15px; border-radius: 20px;",
  "            font-size: 0.9em; display: inline-block; margin: 10px 0;",
  "        \x7d",
  "    </style>",
  "</head>",
  "<body>",
  "    <div class=\"container\">",
  "        <div class=\"header\">",
  "            <h1>🏆 Intelligent Retail Analytics Engine v3.0</h1>",
  "            <p>Enterprise-Grade AI-Powered Retail Intelligence Platform</p>",
  "            <div class=\"competition-badge\">$100,000 BigQuery AI Competition Winner</div>",
  "            <div class=\"vercel-badge\">🚀 Deployed on Vercel</div>",
  "        </div>",
  "",
  "        <div class=\"competition-info\" style=\"background: rgba(255, 255, 255, 0.95); border-radius: 15px; padding: 25px; margin-bottom: 20px; box-shadow: 0 10px 30px rgba(0,0,0,0.1);\">",
  "            <h3>🎯 Competition Status</h3>",
  "            <p><span class=\"status-indicator status-online\"></span><strong>System Status:</strong> Online & Ready</p>",
  "            <p><strong>Win Probability:</strong> 95-98%</p>",
  "            <p><strong>Competition:</strong> BigQuery AI - Building the Future of Data</p>",
  "            <p><strong>Prize:</strong> $100,000</p>",
  "            <p><strong>Deployment:</strong> Vercel Cloud</p>",
  "        </div>",
  "",
  "        <div class=\"dashboard-grid\">",
  "            <div class=\"card\">",
  "                <h3>📊 System Overview</h3>",
  "                <div class=\"metric\">\x7b\x7b dashboard.total_products \x7d\x7d</div>",
  "                <div class=\"metric-label\">Total Products Analyzed</div>",
  "            </div>",
  "            <div class=\"card\">",
  "                <h3>💰 Revenue Analytics</h3>",
  "                <div class=\"metric\">$\x7b\x7b \"%.2f\"|format(dashboard.total_revenue) \x7d\x7d</div>",
  "                <div class=\"metric-label\">Total Revenue</div>",
  "            </div>",
  "            <div class=\"card\">",
  "                <h3>👥 User Engagement</h3>",
  "                <div class=\"metric\">\x7b\x7b dashboard.active_users \x7d\x7d</div>",
  "                <div class=\"metric-label\">Active Users</div>",
  "            </div>",
  "            <div class=\"card\">",
  "                <h3>📈 Performance</h3>",
  "                <div class=\"metric\">\x7b\x7b dashboard.conversion_rate \x7d\x7d%</div>",
  "                <div class=\"metric-label\">Conversion Rate</div>",
  "            </div>",
  "        </div>",
  "",
  "        <div class=\"test-section\">",
  "            <h2>🧪 System Testing Interface</h2>",
  "            <h3>Test Analytics Queries</h3>",
  "            <button class=\"btn\" onclick=\"runDashboardTest()\">📊 Get Dashboard Data</button>",
  "            <button class=\"btn\" onclick=\"runProductTest()\">📦 Get Product Performance</button>",
  "            <button class=\"btn\" onclick=\"runCategoryTest()\">📂 Get Category Analysis</button>",
  "            <button class=\"btn\" onclick=\"runHealthTest()\">❤️ System Health Check</button>",
  "            <div id=\"test-results\"></div>",
  "        </div>",
  "",
  "        <div class=\"test-section\">",
  "            <h2>🎨 AI Features Demonstration</h2>",
  "            <div class=\"feature-list\">",
  "                <div class=\"feature-item\">",
  "                    <h4>🤖 Multimodal Embeddings</h4>",
  "                    <p>Text + Image processing for comprehensive product understanding</p>",
  "                </div>",
  "                <div class=\"feature-item\">",
  "                    <h4>🔍 Vector Search</h4>",
  "                    <p>Semantic similarity matching for intelligent recommendations</p>",
  "                </div>",
  "                <div class=\"feature-item\">",
  "                    <h4>🧠 Generative AI</h4>",
  "                    <p>Automated business insights and executive summaries</p>",
  "                </div>",
  "                <div class=\"feature-item\">",
  "                    <h4>📊 Real-time Analytics</h4>",
  "                    <p>Live dashboard with performance monitoring</p>",
  "                </div>",
  "                <div class=\"feature-item\">",
  "                    <h4>🔒 Enterprise Security</h4>",
  "                    <p>OWASP compliant with comprehensive protection</p>",
  "                </div>",
  "                <div class=\"feature-item\">",
  "                    <h4>⚡ High Performance</h4>",
  "                    <p>Sub-2 second query response times</p>",
  "                </div>",
  "            </div>",
  "        </div>",
  "",
  "        <div class=\"test-section\">",
  "            <h2>📋 Recent AI Insights</h2>",
  "            <ul class=\"insights-list\">",
  "                \x7b% for insight in dashboard.recent_insights %\x7d",
  "                <li>\x7b\x7b insight \x7d\x7d</li>",
  "                \x7b% endfor %\x7d",
  "            </ul>",
  "        </div>",
  "",
  "        <div class=\"test-section\">",
  "            <h2>🏆 Competition Advantages</h2>",
  "            <p><strong>Technical Excellence (35%):</strong> Complete BigQuery AI integration, production-ready architecture</p>",
  "            <p><strong>Innovation & Creativity (25%):</strong> Novel multimodal retail intelligence, quantified business impact</p>",
  "            <p><strong>Demo & Presentation (20%):</strong> Live system with professional quality, clear business case</p>",
  "            <p><strong>Assets & Documentation (20%):</strong> Complete GitHub repository, comprehensive technical docs</p>",
  "        </div>",
  "    </div>",
  "",
  "    <script>",
  "        function showResult(title, data) \x7b",
  "            const resultsDiv = document.getElementById(\x27test-results\x27);",
  "            const resultBox = document.createElement(\x27div\x27);",
  "            resultBox.className = \x27result-box\x27;",
  "            resultBox.innerHTML = \x60<strong>$\x7btitle\x7d:</strong>\\\\n$\x7bJSON.stringify(data, null, 2)\x7d\x60;",
  "            resultsDiv.appendChild(resultBox);",
  "        \x7d",
  "",
  "        async function runDashboardTest() \x7b",
  "            try \x7b",
  "                const response = await fetch(\x27/api/test/dashboard\x27);",
  "                const data = await response.json();",
  "                showResult(\x27📊 Dashboard Test Results\x27, data);",
  "            \x7d catch (error) \x7b",
  "                showResult(\x27❌ Dashboard Test Error\x27, \x7b error: error.message \x7d);",
  "            \x7d",
  "        \x7d",
  "",
  "        async function runProductTest() \x7b",
  "            try \x7b",
  "                const response = await fetch(\x27/api/test/products\x27);",
  "                const data = await response.json();",
  "                showResult(\x27📦 Product Performance Test Results\x27, data);",
  "            \x7d catch (error) \x7b",
  "                showResult(\x27❌ Product Test Error\x27, \x7b error: error.message \x7d);",
  "            \x7d",
  "        \x7d",
  "",
  "        async function runCategoryTest() \x7b",
  "            try \x7b",
  "                const response = await fetch(\x27/api/test/categories\x27);",
  "                const data = await response.json();",
  "                showResult(\x27📂 Category Analysis Test Results\x27, data);",
  "            \x7d catch (error) \x7b",
  "                showResult(\x27❌ Category Test Error\x27, \x7b error: error.message \x7d);",
  "            \x7d",
  "        \x7d",
  "",
  "        async function runHealthTest() \x7b",
  "            try \x7b",
  "                const response = await fetch(\x27/api/test/health\x27);",
  "                const data = await response.json();",
  "                showResult(\x27❤️ System Health Test Results\x27, data);",
  "            \x7d catch (error) \x7b",
  "                showResult(\x27❌ Health Test Error\x27, \x7b error: error.message \x7d);",
  "            \x7d",
  "        \x7d",
  "    </script>",
  "</body>",
  "</html>",
  ""]

def HTML_TEMPLATE : String := joinLines templateLines

/-- Replacement string of the last `.replace` in `home`:
`"\\n".join(f"<li>{insight}</li>" for insight in MOCK_DASHBOARD_DATA["recent_insights"])`
(the separator is the two-character sequence backslash-n). -/
def insightsJoined : String :=
  "<li>Electronics category showing 12.5% growth</li>\\n<li>Customer satisfaction improved by 8.3%</li>\\n<li>New product recommendations increased conversion by 15%</li>"

/-- The seven substitutions of `home` (vercel_app.py lines 300-306) applied
to one string; `str(...)` of the dashboard values renders as the literals
below (`str(450000.00)` is `"450000.0"`). -/
def lineSubst (l : String) : String :=
  pyReplace (pyReplace (pyReplace (pyReplace (pyReplace (pyReplace (pyReplace l
    "\x7b\x7b dashboard.total_products \x7d\x7d" "1250")
    "\x7b\x7b dashboard.total_revenue \x7d\x7d" "450000.0")
    "\x7b\x7b dashboard.active_users \x7d\x7d" "890")
    "\x7b\x7b dashboard.conversion_rate \x7d\x7d" "3.2")
    "\x7b% for insight in dashboard.recent_insights %\x7d" "")
    "\x7b% endfor %\x7d" "")
    "\x7b\x7b insight \x7d\x7d" insightsJoined

/-- GET `/` (vercel_app.py lines 297-306): the replace chain applied to the
whole template. -/
def home : String := lineSubst HTML_TEMPLATE

/-- The Jinja-style placeholder for the revenue metric as it is actually
spelled in the template (line 171 of vercel_app.py). -/
def revenuePlaceholder : String :=
  "\x7b\x7b \"%.2f\"|format(dashboard.total_revenue) \x7d\x7d"

/-- Template line 171 of vercel_app.py, the revenue metric. -/
def revenueLine : String :=
  "                <div class=\"metric\">$\x7b\x7b \"%.2f\"|format(dashboard.total_revenue) \x7d\x7d</div>"

end VercelApp

/-! ### scripts/setup_enhanced_tables.py

`setup_enhanced_bigquery_tables` (lines 15-112).  The BigQuery client, the
connection-test query and the file system are external: the model takes the
existence of the SQL file, its text, and an oracle `exec` giving the success
of the i-th submitted statement.  It returns the boolean result together
with the list of statements submitted, in order.
-/

namespace SetupTables

/-- Python `str.strip()`: drop whitespace from both ends. -/
def pyStrip (s : String) : String :=
  ⟨((s.data.dropWhile Char.isWhitespace).reverse.dropWhile Char.isWhitespace).reverse⟩

/-- Python `str.split(';')`: split at every semicolon, keeping empty pieces. -/
def splitSemiL : List Char → List (List Char)
  | [] => [[]]
  | c :: rest =>
    match splitSemiL rest with
    | [] => [[]]
    | g :: gs => if c = ';' then [] :: g :: gs else (c :: g) :: gs

/-- Line 50: `[stmt.strip() for stmt in sql_content.split(';') if stmt.strip()]`. -/
def statementsOf (sql : String) : List String :=
  ((splitSemiL sql.data).map (fun g => pyStrip ⟨g⟩)).filter (fun s => !(s == ""))

/-- The execution loop (lines 57-86): submit every statement in order; a
failed statement is counted and the loop continues.  Returns
(successful_statements, failed_statements, submitted statements in order). -/
def runStatements (exec : Nat → Bool) : Nat → List String → Nat × Nat × List String
  | _, [] => (0, 0, [])
  | i, stmt :: rest =>
    let r := runStatements exec (i + 1) rest
    if exec i then (r.1 + 1, r.2.1, stmt :: r.2.2)
    else (r.1, r.2.1 + 1, stmt :: r.2.2)

/-- setup_enhanced_bigquery_tables.  A missing SQL file returns `False`
before any statement is read (line 43).  Otherwise the loop runs over all
statements and the function returns `True` iff `successful_statements > 0`
(lines 96-103); with an empty statement list the success-rate print divides
by zero and the outer `except` also returns `False`. -/
def setup_enhanced_bigquery_tables (fileExists : Bool) (sqlContent : String)
    (exec : Nat → Bool) : Bool × List String :=
  if !fileExists then (false, [])
  else
    let stmts := statementsOf sqlContent
    let r := runStatements exec 0 stmts
    (decide (0 < r.1), r.2.2)

end SetupTables

/-! ### UTF-8 encoding

Python `str.encode('utf-8')`, used by the bcrypt model (passlib encodes the
password before hashing) and by the magic-number framing of debug_utils.py.
Bytes are modelled as natural numbers below 256.
-/

/-- UTF-8 encoding of a Unicode scalar value (the standard bit layout in
div/mod form). -/
def utf8EncodeChar (c : Nat) : List Nat :=
  if c < 0x80 then [c]
  else if c < 0x800 then [0xC0 + c / 64, 0x80 + c % 64]
  else if c < 0x10000 then
    [0xE0 + c / 4096, 0x80 + c / 64 % 64, 0x80 + c % 64]
  else
    [0xF0 + c / 262144, 0x80 + c / 4096 % 64, 0x80 + c / 64 % 64, 0x80 + c % 64]

/-- Python `s.encode('utf-8')` as a byte list. -/
def pyEncodeUtf8 (s : String) : List Nat :=
  s.data.flatMap (fun c => utf8EncodeChar c.toNat)

/-! ### src/api/main.py — SecurityUtils

Password hashing (lines 118-128) and JWT handling (lines 130-159).  The
cryptographic primitives live in third-party libraries (passlib, python-jose)
and are idealised:

* bcrypt's key derivation is treated as an injective function of the salt and
  the key; its one non-ideal behaviour that is kept is the real bcrypt
  truncation of the UTF-8 password to its first 72 bytes,
* the HMAC signature of a JWT is treated as unforgeable: a token carries the
  key it was signed with, and signature verification succeeds exactly when
  that key equals the configured key.

Times (`datetime.utcnow()` and timedeltas) are abstract rational instants.
-/

namespace SecurityUtils

/-- A bcrypt hash string: it records the salt and the derived digest; the
digest is idealised as the truncated key itself (bcrypt truncates the
password's UTF-8 encoding to 72 bytes). -/
structure BcryptHash where
  salt : Nat
  digest : List Nat

/-- hash_password (lines 118-122): bcrypt with a fresh salt. -/
def hash_password (salt : Nat) (password : String) : BcryptHash :=
  ⟨salt, (pyEncodeUtf8 password).take 72⟩

/-- verify_password (lines 124-128): re-derive the digest with the stored
salt and compare. -/
def verify_password (plain_password : String) (hashed_password : BcryptHash) : Bool :=
  (pyEncodeUtf8 plain_password).take 72 == hashed_password.digest

/-- A JWT produced by `jwt.encode`: its claim set, plus the signing key
(standing for the HMAC-SHA256 signature). -/
structure JwtToken where
  payload : List (String × Json)
  signKey : String

/-- create_access_token (lines 130-141): copy the data, set
`exp = utcnow() + (expires_delta or the configured default)` and
`type = "access"`, and sign with `JWT_SECRET_KEY`.  `defaultExpire` is
`timedelta(minutes=JWT_ACCESS_TOKEN_EXPIRE_MINUTES)` (30 minutes unless
overridden by the environment). -/
def create_access_token (jwtSecretKey : String) (defaultExpire : Rat)
    (data : List (String × Json)) (now : Rat) (expires_delta : Option Rat) :
    JwtToken :=
  let expire : Rat :=
    match expires_delta with
    | some d => now + d
    | none => now + defaultExpire
  ⟨setKeyA (setKeyA data "exp" (.num expire)) "type" (.str "access"), jwtSecretKey⟩

/-- verify_token (lines 152-159): `jwt.decode` validates the signature and
the registered `exp` claim (`ExpiredSignatureError` when `exp < now`),
returning the claim set; any `JWTError` yields `None`. -/
def verify_token (jwtSecretKey : String) (token : JwtToken) (now : Rat) :
    Option (List (String × Json)) :=
  if token.signKey = jwtSecretKey then
    match lookupA "exp" token.payload with
    | some (.num e) => if e < now then none else some token.payload
    | _ => some token.payload
  else none

end SecurityUtils

/-! ### debug_utils.py — SafeAPIResult, safe_api_call, magic numbers -/

namespace DebugUtils

/-- SafeAPIResult (debug_utils.py lines 96-119): `success`, `_data`
(`None` or a value) and `error`. -/
structure SafeAPIResult (α : Type) where
  success : Bool
  data : Option α
  error : String

/-- Classmethod `SafeAPIResult.ok` (lines 103-105). -/
def SafeAPIResult.ok {α : Type} (data : α) : SafeAPIResult α :=
  ⟨true, some data, ""⟩

/-- Classmethod `SafeAPIResult.error` (lines 107-109). -/
def SafeAPIResult.mkError {α : Type} (error : String) : SafeAPIResult α :=
  ⟨false, none, error⟩

/-- Method `unwrap` (lines 111-115): raise
`ValueError(f"API call failed: {self.error}")` when `success` is false,
otherwise return `_data`. -/
def SafeAPIResult.unwrap {α : Type} (r : SafeAPIResult α) : Except String (Option α) :=
  if r.success = false then .error ("API call failed: " ++ r.error)
  else .ok r.data

/-- Method `unwrap_or` (lines 117-119): `self._data if self.success else default`. -/
def SafeAPIResult.unwrap_or {α : Type} (r : SafeAPIResult α) (default : Option α) :
    Option α :=
  if r.success then r.data else default

/-- safe_api_call (lines 341-366): the wrapper around a function call whose
outcome is either a value or an exception with message `e`; logging aside, it
returns `SafeAPIResult.ok(result)` or
`SafeAPIResult.error(f"API call failed: {func.__name__} - {str(e)}")`. -/
def safe_api_call {α : Type} (funcName : String) (outcome : Except String α) :
    SafeAPIResult α :=
  match outcome with
  | .ok v => SafeAPIResult.ok v
  | .error e => SafeAPIResult.mkError ("API call failed: " ++ funcName ++ " - " ++ e)

/-- Trailing-zero strip on bytes: for the valid UTF-8 frames built by
`insert_magic_numbers`, `bytes.decode('utf-8').rstrip('\x00')` equals the
decoding of the bytes with trailing zero bytes removed (a zero byte in valid
UTF-8 is exactly the NUL character). -/
def rstripZeros (bs : List Nat) : List Nat :=
  (bs.reverse.dropWhile (· == 0)).reverse

/-- insert_magic_numbers (debug_utils.py lines 589-598): frame `data` as
`CDCDCDCD ++ operation-utf8-truncated-to-16-padded-with-nulls ++ data ++
ABABABAB`; a pass-through when debugging is disabled. -/
def insert_magic_numbers (debugEnabled : Bool) (data : List Nat) (operation : String) :
    List Nat :=
  if !debugEnabled then data
  else
    let magic_start := [0xCD, 0xCD, 0xCD, 0xCD]
    let magic_end := [0xAB, 0xAB, 0xAB, 0xAB]
    let ob := (pyEncodeUtf8 operation).take 16
    let operation_bytes := ob ++ List.replicate (16 - ob.length) 0
    magic_start ++ operation_bytes ++ data ++ magic_end

/-- validate_magic_numbers (lines 600-612): `True` when debugging is
disabled or the data is shorter than 24 bytes; otherwise check the start
magic and compare the decoded, NUL-stripped operation field (byte-level
comparison; UTF-8 decoding is injective). -/
def validate_magic_numbers (debugEnabled : Bool) (data : List Nat)
    (expected_operation : String) : Bool :=
  if !debugEnabled || data.length < 24 then true
  else
    let magic_start := data.take 4
    let operation_bytes := (data.drop 4).take 16
    magic_start == [0xCD, 0xCD, 0xCD, 0xCD] &&
      rstripZeros operation_bytes == pyEncodeUtf8 expected_operation

end DebugUtils

/-- Field access on a JSON object. -/
def jsonField (k : String) (j : Json) : Option Json :=
  match j with
  | .obj fields => lookupA k fields
  | _ => none

/-! ## Claims -/

/-! ## Properties -/

theorem startsWithL_iff (pat s : List Char) :
    startsWithL pat s = true ↔ ∃ t, s = pat ++ t := by
  induction pat generalizing s with
  | nil => simp [startsWithL]
  | cons p ps ih =>
    cases s with
    | nil => simp [startsWithL]
    | cons c cs =>
      simp only [startsWithL, Bool.and_eq_true, beq_iff_eq, ih, List.cons_append,
        List.cons.injEq]
      constructor
      · rintro ⟨rfl, t, rfl⟩
        exact ⟨t, rfl, rfl⟩
      · rintro ⟨t, rfl, rfl⟩
        exact ⟨rfl, t, rfl⟩

theorem containsSub_iff (pat s : List Char) :
    containsSub pat s = true ↔ ∃ u v, s = u ++ pat ++ v := by
  induction s with
  | nil =>
    simp only [containsSub, startsWithL_iff]
    constructor
    · rintro ⟨t, ht⟩
      exact ⟨[], t, by simpa using ht⟩
    · rintro ⟨u, v, huv⟩
      have hu : u = [] := by
        cases u with
        | nil => rfl
        | cons a as => simp at huv
      subst hu
      exact ⟨v, by simpa using huv⟩
  | cons c cs ih =>
    simp only [containsSub, Bool.or_eq_true, startsWithL_iff, ih]
    constructor
    · rintro (⟨t, ht⟩ | ⟨u, v, huv⟩)
      · exact ⟨[], t, by simpa using ht⟩
      · exact ⟨c :: u, v, by simp [huv]⟩
    · rintro ⟨u, v, huv⟩
      cases u with
      | nil => exact Or.inl ⟨v, by simpa using huv⟩
      | cons a as =>
        simp only [List.cons_append, List.cons.injEq] at huv
        exact Or.inr ⟨as, v, huv.2⟩

theorem startsWithL_append (pat a b : List Char) (h : startsWithL pat a = true) :
    startsWithL pat (a ++ b) = true := by
  rw [startsWithL_iff] at h ⊢
  obtain ⟨t, rfl⟩ := h
  exact ⟨t ++ b, by simp⟩

theorem pyReplaceAux_fuel (pat rep : List Char) :
    ∀ f1 f2 s, s.length ≤ f1 → s.length ≤ f2 →
      pyReplaceAux pat rep f1 s = pyReplaceAux pat rep f2 s := by
  intro f1
  induction f1 with
  | zero =>
    intro f2 s h1 _
    have : s = [] := List.eq_nil_of_length_eq_zero (Nat.le_zero.mp h1)
    subst this
    cases f2 <;> rfl
  | succ f ih =>
    intro f2 s h1 h2
    cases s with
    | nil => cases f2 <;> rfl
    | cons c rest =>
      cases f2 with
      | zero => simp at h2
      | succ f2' =>
        simp only [pyReplaceAux]
        by_cases hm : (!pat.isEmpty && startsWithL pat (c :: rest)) = true
        · rw [if_pos hm, if_pos hm]
          have hp : pat ≠ [] := by
            intro hnil
            simp [hnil] at hm
          have hplen : 1 ≤ pat.length := by
            cases pat with
            | nil => exact absurd rfl hp
            | cons _ _ => simp
          have hlen : ((c :: rest).drop pat.length).length ≤ f := by
            simp only [List.length_drop, List.length_cons]
            simp only [List.length_cons] at h1
            omega
          have hlen2 : ((c :: rest).drop pat.length).length ≤ f2' := by
            simp only [List.length_drop, List.length_cons]
            simp only [List.length_cons] at h2
            omega
          rw [ih _ _ hlen hlen2]
        · rw [if_neg hm, if_neg hm]
          have hlen : rest.length ≤ f := by
            simp only [List.length_cons] at h1
            omega
          have hlen2 : rest.length ≤ f2' := by
            simp only [List.length_cons] at h2
            omega
          rw [ih _ _ hlen hlen2]

theorem pyReplaceAux_eq_pyReplaceL (pat rep : List Char) (f : Nat) (s : List Char)
    (h : s.length ≤ f) : pyReplaceAux pat rep f s = pyReplaceL pat rep s :=
  pyReplaceAux_fuel pat rep f s.length s h (Nat.le_refl _)

/-- A pattern occurrence inside `a ++ x :: b` that starts inside `a` either
lies entirely inside `a` or contains the boundary character `x`. -/
theorem pattern_boundary (x : Char) :
    ∀ (a pat t b : List Char), a ++ x :: b = pat ++ t →
      pat.length ≤ a.length ∨ x ∈ pat := by
  intro a
  induction a with
  | nil =>
    intro pat t b h
    cases pat with
    | nil => exact Or.inl (by simp)
    | cons p ps =>
      simp only [List.nil_append, List.cons_append, List.cons.injEq] at h
      exact Or.inr (h.1 ▸ List.mem_cons_self _ _)
  | cons c a2 ih =>
    intro pat t b h
    cases pat with
    | nil => exact Or.inl (by simp)
    | cons p ps =>
      simp only [List.cons_append, List.cons.injEq] at h
      rcases ih ps t b h.2 with hle | hmem
      · exact Or.inl (by simp [Nat.succ_le_succ hle])
      · exact Or.inr (List.mem_cons_of_mem _ hmem)

/-- Replacement with a pattern that does not contain the character `x` cannot
cross an occurrence of `x`: it acts independently on the two sides. -/
theorem pyReplaceL_append_cons (pat rep : List Char) (x : Char)
    (hx : x ∉ pat) (hne : pat ≠ []) :
    ∀ a b, pyReplaceL pat rep (a ++ x :: b) =
      pyReplaceL pat rep a ++ x :: pyReplaceL pat rep b := by
  have hplen : 1 ≤ pat.length := by
    cases pat with
    | nil => exact absurd rfl hne
    | cons _ _ => simp
  have hnotempty : pat.isEmpty = false := by
    cases pat with
    | nil => exact absurd rfl hne
    | cons _ _ => rfl
  have hstep : ∀ (c : Char) (s : List Char) (f : Nat),
      pyReplaceAux pat rep (f + 1) (c :: s) =
        if startsWithL pat (c :: s) = true then
          rep ++ pyReplaceAux pat rep f ((c :: s).drop pat.length)
        else c :: pyReplaceAux pat rep f s := by
    intro c s f
    simp only [pyReplaceAux, hnotempty, Bool.not_false, Bool.true_and]
  have hxstart : ∀ b : List Char, ¬ startsWithL pat (x :: b) = true := by
    intro b hs
    rw [startsWithL_iff] at hs
    obtain ⟨t, ht⟩ := hs
    cases pat with
    | nil => exact hne rfl
    | cons p ps =>
      simp only [List.cons_append, List.cons.injEq] at ht
      exact hx (ht.1 ▸ List.mem_cons_self _ _)
  have hbase : ∀ b : List Char,
      pyReplaceL pat rep (x :: b) = x :: pyReplaceL pat rep b := by
    intro b
    rw [pyReplaceL]
    simp only [List.length_cons]
    rw [hstep, if_neg (hxstart b),
      pyReplaceAux_eq_pyReplaceL pat rep b.length b (Nat.le_refl _)]
  suffices haux : ∀ n a b, a.length ≤ n → pyReplaceL pat rep (a ++ x :: b) =
      pyReplaceL pat rep a ++ x :: pyReplaceL pat rep b by
    intro a b
    exact haux a.length a b (Nat.le_refl _)
  intro n
  induction n with
  | zero =>
    intro a b ha
    have h0 : a = [] := List.eq_nil_of_length_eq_zero (Nat.le_zero.mp ha)
    subst h0
    simpa [pyReplaceL, pyReplaceAux] using hbase b
  | succ n ih =>
    intro a b ha
    cases a with
    | nil => simpa [pyReplaceL, pyReplaceAux] using hbase b
    | cons c a2 =>
      have ha2 : a2.length ≤ n := by
        simp only [List.length_cons] at ha
        omega
      by_cases hm : startsWithL pat (c :: a2) = true
      · obtain ⟨t, ht⟩ := (startsWithL_iff pat (c :: a2)).mp hm
        have hlenle : pat.length ≤ (c :: a2).length := by
          rw [ht]
          simp
        have hmfull : startsWithL pat ((c :: a2) ++ x :: b) = true :=
          startsWithL_append pat (c :: a2) (x :: b) hm
        have hL : pyReplaceL pat rep ((c :: a2) ++ x :: b) =
            rep ++ pyReplaceL pat rep ((c :: a2).drop pat.length ++ x :: b) := by
          rw [pyReplaceL]
          have hsh : (c :: a2) ++ x :: b = c :: (a2 ++ x :: b) := by simp
          rw [hsh, List.length_cons, hstep, ← hsh, if_pos hmfull,
            List.drop_append_of_le_length hlenle,
            pyReplaceAux_eq_pyReplaceL pat rep _ _ (by
              simp only [List.length_append, List.length_drop, List.length_cons]
              omega)]
        have hR : pyReplaceL pat rep (c :: a2) =
            rep ++ pyReplaceL pat rep ((c :: a2).drop pat.length) := by
          rw [pyReplaceL, List.length_cons, hstep, if_pos hm,
            pyReplaceAux_eq_pyReplaceL pat rep _ _ (by
              simp only [List.length_drop, List.length_cons]
              omega)]
        have hdrople : ((c :: a2).drop pat.length).length ≤ n := by
          simp only [List.length_drop, List.length_cons]
          omega
        rw [hL, hR, ih ((c :: a2).drop pat.length) b hdrople]
        simp
      · have hmfull : ¬ startsWithL pat ((c :: a2) ++ x :: b) = true := by
          intro hs
          rw [startsWithL_iff] at hs
          obtain ⟨t, ht⟩ := hs
          rcases pattern_boundary x (c :: a2) pat t b (by simpa using ht) with hle | hmem
          · apply hm
            rw [startsWithL_iff]
            have htake := congrArg (List.take pat.length) ht
            rw [List.take_append_of_le_length hle, List.take_left] at htake
            refine ⟨(c :: a2).drop pat.length, ?_⟩
            conv_lhs => rw [← List.take_append_drop pat.length (c :: a2)]
            rw [htake]
          · exact hx hmem
        have hL : pyReplaceL pat rep ((c :: a2) ++ x :: b) =
            c :: pyReplaceL pat rep (a2 ++ x :: b) := by
          rw [pyReplaceL]
          have hsh : (c :: a2) ++ x :: b = c :: (a2 ++ x :: b) := by simp
          rw [hsh, List.length_cons, hstep, ← hsh, if_neg hmfull]
          rw [pyReplaceAux_eq_pyReplaceL pat rep _ _ (Nat.le_refl _)]
        have hR : pyReplaceL pat rep (c :: a2) = c :: pyReplaceL pat rep a2 := by
          rw [pyReplaceL, List.length_cons, hstep, if_neg hm,
            pyReplaceAux_eq_pyReplaceL pat rep _ _ (Nat.le_refl _)]
        rw [hL, hR, ih a2 b ha2]
        simp

theorem string_data_ext (s t : String) (h : s.data = t.data) : s = t := by
  cases s
  cases t
  exact congrArg String.mk h

theorem joinLines_cons_data (l : String) (ls : List String) (h : ls ≠ []) :
    (joinLines (l :: ls)).data = l.data ++ '\n' :: (joinLines ls).data := by
  cases ls with
  | nil => exact absurd rfl h
  | cons l2 ls2 =>
    show ((l ++ "\n") ++ joinLines (l2 :: ls2)).data = _
    rw [String.data_append, String.data_append]
    simp [String.data]

/-- A replace whose pattern contains no newline acts on a newline-join
line by line. -/
theorem pyReplace_joinLines (pat rep : String)
    (hx : ('\n' : Char) ∉ pat.data) (hne : pat.data ≠ []) :
    ∀ L, pyReplace (joinLines L) pat rep =
      joinLines (L.map (fun l => pyReplace l pat rep)) := by
  intro L
  induction L with
  | nil => rfl
  | cons l ls ih =>
    cases ls with
    | nil => rfl
    | cons l2 ls2 =>
      apply string_data_ext
      show pyReplaceL pat.data rep.data (joinLines (l :: l2 :: ls2)).data = _
      rw [joinLines_cons_data l (l2 :: ls2) (by simp)]
      rw [pyReplaceL_append_cons pat.data rep.data '\n' hx hne]
      rw [List.map_cons,
        joinLines_cons_data (pyReplace l pat rep)
          (List.map (fun l => pyReplace l pat rep) (l2 :: ls2)) (by simp),
        ← ih]
      rfl

theorem containsSub_of_middle (q x y z : List Char)
    (h : containsSub q y = true) :
    containsSub q (x ++ y ++ z) = true := by
  rw [containsSub_iff] at h ⊢
  obtain ⟨u, v, rfl⟩ := h
  exact ⟨x ++ u, v ++ z, by simp⟩

theorem joinLines_mem_split (l : String) :
    ∀ L, l ∈ L → ∃ pre post, (joinLines L).data = pre ++ l.data ++ post := by
  intro L
  induction L with
  | nil => intro h; simp at h
  | cons a as ih =>
    intro h
    rcases List.mem_cons.mp h with rfl | hmem
    · cases as with
      | nil => exact ⟨[], [], by simp [joinLines]⟩
      | cons a2 as2 =>
        refine ⟨[], '\n' :: (joinLines (a2 :: as2)).data, ?_⟩
        rw [joinLines_cons_data l (a2 :: as2) (by simp)]
        simp
    · have hne : as ≠ [] := by
        intro h0
        rw [h0] at hmem
        simp at hmem
      obtain ⟨pre, post, hsplit⟩ := ih hmem
      refine ⟨a.data ++ '\n' :: pre, post, ?_⟩
      rw [joinLines_cons_data a as hne, hsplit]
      simp

/-- A substring of a member line is a substring of the newline-join. -/
theorem containsSub_joinLines (q : List Char) (l : String) (L : List String)
    (hmem : l ∈ L) (h : containsSub q l.data = true) :
    containsSub q (joinLines L).data = true := by
  obtain ⟨pre, post, hsplit⟩ := joinLines_mem_split l L hmem
  rw [hsplit]
  exact containsSub_of_middle q pre l.data post h

theorem lookupA_setKeyA_self {α : Type} (l : List (String × α)) (k : String) (v : α) :
    lookupA k (setKeyA l k v) = some v := by
  induction l with
  | nil => simp [setKeyA, lookupA]
  | cons p rest ih =>
    obtain ⟨k2, v2⟩ := p
    by_cases h : k2 = k
    · simp [setKeyA, h, lookupA]
    · simp [setKeyA, h, lookupA, ih]

theorem lookupA_setKeyA_ne {α : Type} (l : List (String × α)) (k k2 : String) (v : α)
    (h : k2 ≠ k) : lookupA k (setKeyA l k2 v) = lookupA k l := by
  induction l with
  | nil => simp [setKeyA, lookupA, h]
  | cons p rest ih =>
    obtain ⟨k3, v3⟩ := p
    by_cases h3 : k3 = k2
    · subst h3
      simp [setKeyA, lookupA, h]
    · by_cases h4 : k3 = k
      · simp [setKeyA, lookupA, h3, h4, Ne.symm h]
      · simp [setKeyA, lookupA, h3, h4, ih]

theorem vercel_home_lines :
    VercelApp.home = joinLines (VercelApp.templateLines.map VercelApp.lineSubst) := by
  show VercelApp.lineSubst (joinLines VercelApp.templateLines) = _
  unfold VercelApp.lineSubst
  rw [pyReplace_joinLines "\x7b\x7b dashboard.total_products \x7d\x7d" "1250"
        (by decide) (by decide) VercelApp.templateLines,
      pyReplace_joinLines "\x7b\x7b dashboard.total_revenue \x7d\x7d" "450000.0"
        (by decide) (by decide),
      pyReplace_joinLines "\x7b\x7b dashboard.active_users \x7d\x7d" "890"
        (by decide) (by decide),
      pyReplace_joinLines "\x7b\x7b dashboard.conversion_rate \x7d\x7d" "3.2"
        (by decide) (by decide),
      pyReplace_joinLines "\x7b% for insight in dashboard.recent_insights %\x7d" ""
        (by decide) (by decide),
      pyReplace_joinLines "\x7b% endfor %\x7d" "" (by decide) (by decide),
      pyReplace_joinLines "\x7b\x7b insight \x7d\x7d" VercelApp.insightsJoined
        (by decide) (by decide)]
  simp only [List.map_map]
  rfl

theorem vercel_revenueLine_mem : VercelApp.revenueLine ∈ VercelApp.templateLines := by
  have h : VercelApp.templateLines.get? 112 = some VercelApp.revenueLine := rfl
  exact List.get?_mem h

theorem vercel_revenueLine_fixed :
    VercelApp.lineSubst VercelApp.revenueLine = VercelApp.revenueLine := by decide

theorem vercel_revenueLine_has_placeholder :
    containsSub VercelApp.revenuePlaceholder.data VercelApp.revenueLine.data = true := by
  decide

namespace SetupTables

theorem runStatements_trace (exec : Nat → Bool) :
    ∀ i l, (runStatements exec i l).2.2 = l := by
  intro i l
  induction l generalizing i with
  | nil => rfl
  | cons stmt rest ih =>
    simp only [runStatements]
    by_cases h : exec i = true
    · simp [h, ih]
    · simp [h, ih]

theorem runStatements_success_iff (exec : Nat → Bool) :
    ∀ i l, 0 < (runStatements exec i l).1 ↔ ∃ j, j < l.length ∧ exec (i + j) = true := by
  intro i l
  induction l generalizing i with
  | nil => simp [runStatements]
  | cons stmt rest ih =>
    simp only [runStatements]
    by_cases h : exec i = true
    · rw [if_pos h]
      constructor
      · intro _
        exact ⟨0, by simp, by simpa using h⟩
      · intro _
        simp
    · rw [if_neg h, ih (i + 1)]
      constructor
      · rintro ⟨j, hj, hx⟩
        exact ⟨j + 1, by simpa using hj, by
          have : i + 1 + j = i + (j + 1) := by omega
          rwa [this] at hx⟩
      · rintro ⟨j, hj, hx⟩
        cases j with
        | zero =>
          rw [Nat.add_zero] at hx
          exact absurd hx h
        | succ j2 =>
          refine ⟨j2, by simp at hj; omega, ?_⟩
          have : i + 1 + j2 = i + (j2 + 1) := by omega
          rwa [this]

theorem statementsOf_nonempty (sql : String) :
    ∀ s ∈ statementsOf sql, s ≠ "" := by
  intro s hs
  have := List.of_mem_filter hs
  simpa using this

end SetupTables

theorem utf8EncodeChar_ne_nil (c : Nat) : utf8EncodeChar c ≠ [] := by
  unfold utf8EncodeChar
  split_ifs <;> simp

/-- UTF-8 is a prefix code: equal streams starting with encoded characters
start with the same character. -/
theorem utf8EncodeChar_append_inj (c c2 : Nat) (r r2 : List Nat)
    (h : utf8EncodeChar c ++ r = utf8EncodeChar c2 ++ r2) : c = c2 ∧ r = r2 := by
  unfold utf8EncodeChar at h
  split_ifs at h <;>
    simp only [List.cons_append, List.nil_append, List.cons.injEq] at h <;>
    first
      | exact absurd h.1 (by omega)
      | exact ⟨by omega, by tauto⟩

theorem charToNat_inj (c d : Char) (h : c.toNat = d.toNat) : c = d := by
  have h1 := congrArg Char.ofNat h
  rwa [Char.ofNat_toNat, Char.ofNat_toNat] at h1

theorem utf8FlatMap_inj :
    ∀ l1 l2 : List Char,
      l1.flatMap (fun c => utf8EncodeChar c.toNat) =
        l2.flatMap (fun c => utf8EncodeChar c.toNat) → l1 = l2 := by
  intro l1
  induction l1 with
  | nil =>
    intro l2 h
    cases l2 with
    | nil => rfl
    | cons b bs =>
      simp only [List.flatMap_nil, List.flatMap_cons] at h
      have h0 := h.symm
      rw [List.append_eq_nil] at h0
      exact absurd h0.1 (utf8EncodeChar_ne_nil _)
  | cons a as ih =>
    intro l2 h
    cases l2 with
    | nil =>
      simp only [List.flatMap_nil, List.flatMap_cons] at h
      rw [List.append_eq_nil] at h
      exact absurd h.1 (utf8EncodeChar_ne_nil _)
    | cons b bs =>
      simp only [List.flatMap_cons] at h
      obtain ⟨hc, hr⟩ := utf8EncodeChar_append_inj _ _ _ _ h
      rw [charToNat_inj a b hc, ih bs hr]

theorem pyEncodeUtf8_inj (s t : String) (h : pyEncodeUtf8 s = pyEncodeUtf8 t) :
    s = t :=
  string_data_ext s t (utf8FlatMap_inj s.data t.data h)

theorem pyEncodeUtf8_all_ne_nil (s : String) (h : s ≠ "") :
    pyEncodeUtf8 s ≠ [] := by
  intro h0
  apply h
  apply string_data_ext
  cases hs : s.data with
  | nil => rfl
  | cons a as =>
    unfold pyEncodeUtf8 at h0
    rw [hs] at h0
    simp only [List.flatMap_cons] at h0
    rw [List.append_eq_nil] at h0
    exact absurd h0.1 (utf8EncodeChar_ne_nil _)

/-- C1, counterexample: the claim says each test endpoint returns a literal
constant independent of when the call happens; but every response embeds
`datetime.now().isoformat()`, so two invocations of `/api/test/dashboard` at
different instants return different JSON bodies. -/
theorem c1_counterexample :
    ApiIndex.test_dashboard "2025-01-01T00:00:00" ≠
      ApiIndex.test_dashboard "2025-01-01T00:00:01" := by
  intro h
  have h2 := congrArg (jsonField "timestamp") h
  simp [ApiIndex.test_dashboard, jsonField, lookupA] at h2

/-- C1, amended: each of the four test endpoints of both applications
returns, apart from the `"timestamp"` field, a literal constant: any two
invocations agree on the whole body with the timestamp field removed. -/
theorem c1_static_modulo_timestamp :
    ∀ t1 t2 : String,
      dropTimestamp (ApiIndex.test_dashboard t1) =
          dropTimestamp (ApiIndex.test_dashboard t2) ∧
      dropTimestamp (ApiIndex.test_products t1) =
          dropTimestamp (ApiIndex.test_products t2) ∧
      dropTimestamp (ApiIndex.test_categories t1) =
          dropTimestamp (ApiIndex.test_categories t2) ∧
      dropTimestamp (ApiIndex.test_health t1) =
          dropTimestamp (ApiIndex.test_health t2) ∧
      dropTimestamp (VercelApp.test_dashboard t1) =
          dropTimestamp (VercelApp.test_dashboard t2) ∧
      dropTimestamp (VercelApp.test_products t1) =
          dropTimestamp (VercelApp.test_products t2) ∧
      dropTimestamp (VercelApp.test_categories t1) =
          dropTimestamp (VercelApp.test_categories t2) ∧
      dropTimestamp (VercelApp.test_health t1) =
          dropTimestamp (VercelApp.test_health t2) :=
  fun _ _ => ⟨rfl, rfl, rfl, rfl, rfl, rfl, rfl, rfl⟩

/-- C2: in both applications, `/api/test/products` returns
`MOCK_PRODUCT_DATA` verbatim as its `"data"` field (all 4 entries, in
order) and `len(MOCK_PRODUCT_DATA)` as its `"total_products"` field. -/
theorem c2_products_verbatim :
    ∀ now : String,
      jsonField "data" (ApiIndex.test_products now) =
          some (.arr (Mock.MOCK_PRODUCT_DATA.map Mock.Product.toJson)) ∧
      jsonField "total_products" (ApiIndex.test_products now) =
          some (.num (Mock.MOCK_PRODUCT_DATA.length : Rat)) ∧
      jsonField "data" (VercelApp.test_products now) =
          some (.arr (Mock.MOCK_PRODUCT_DATA.map Mock.Product.toJson)) ∧
      jsonField "total_products" (VercelApp.test_products now) =
          some (.num (Mock.MOCK_PRODUCT_DATA.length : Rat)) ∧
      Mock.MOCK_PRODUCT_DATA.length = 4 :=
  fun _ => ⟨rfl, rfl, rfl, rfl, rfl⟩

/-- C3: code bug in vercel_app.py's root handler.  The template spells the
revenue metric as the Jinja expression
`{{ "%.2f"|format(dashboard.total_revenue) }}`, but the replace chain in
`home` only substitutes the plain `{{ dashboard.total_revenue }}` (a dead
replacement: that spelling occurs nowhere in the template).  Hence the page
served by `home` still contains the raw placeholder, and the template line
holding the revenue metric is returned completely unchanged, so the value
450000.0 is never embedded. -/
theorem c3_revenue_placeholder_unsubstituted :
    containsSub VercelApp.revenuePlaceholder.data VercelApp.home.data = true ∧
    VercelApp.lineSubst VercelApp.revenueLine = VercelApp.revenueLine ∧
    containsSub "450000".data VercelApp.revenueLine.data = false := by
  refine ⟨?_, vercel_revenueLine_fixed, by decide⟩
  rw [vercel_home_lines]
  have hmem2 : VercelApp.lineSubst VercelApp.revenueLine ∈
      VercelApp.templateLines.map VercelApp.lineSubst :=
    List.mem_map_of_mem _ vercel_revenueLine_mem
  have hline := vercel_revenueLine_has_placeholder
  rw [← vercel_revenueLine_fixed] at hline
  exact containsSub_joinLines _ _ _ hmem2 hline

/-- C4: the root handler of api/index.py never lets an exception escape:
whatever the outcome of the `generate_html_page()` call, `home` returns an
HTML string; when the call raises with message `e`, the inline fallback page
embedding `e` is returned, and `generate_html_page` itself already maps a
rendering exception to its own fallback page embedding the message. -/
theorem c4_home_never_raises :
    ∀ r : Except String String,
      (∃ html, ApiIndex.home r = .ok html) ∧
      (∀ h, r = .ok h → ApiIndex.home r = .ok h) ∧
      (∀ e, r = .error e → ApiIndex.home r =
          .ok (ApiIndex.homeFallbackPre ++ e ++ ApiIndex.homeFallbackPost)) ∧
      (∀ e, ApiIndex.generate_html_page (.error e) =
          ApiIndex.genFallbackPre ++ e ++ ApiIndex.genFallbackPost) := by
  intro r
  cases r with
  | ok html =>
    refine ⟨⟨html, rfl⟩, ?_, ?_, ?_⟩
    · intro h hh
      rw [hh]
      rfl
    · intro e he
      cases he
    · intro e
      rfl
  | error e0 =>
    refine ⟨⟨ApiIndex.homeFallbackPre ++ e0 ++ ApiIndex.homeFallbackPost, rfl⟩, ?_, ?_, ?_⟩
    · intro h hh
      cases hh
    · intro e he
      injection he with he2
      rw [he2]
      rfl
    · intro e
      rfl

/-- C4 witness: a concrete exception outcome. -/
theorem c4_witness :
    ApiIndex.home (.error "boom") =
      .ok (ApiIndex.homeFallbackPre ++ "boom" ++ ApiIndex.homeFallbackPost) :=
  (c4_home_never_raises (.error "boom")).2.2.1 "boom" rfl

/-- C5: `setup_enhanced_bigquery_tables` splits the SQL file on `;` into
stripped nonempty statements, submits every one of them in order regardless
of earlier failures, and returns `True` iff at least one statement succeeds;
when the SQL file does not exist it returns `False` with no statement
submitted. -/
theorem c5_setup_behaviour :
    ∀ (fileExists : Bool) (sql : String) (exec : Nat → Bool),
      (fileExists = false →
        SetupTables.setup_enhanced_bigquery_tables fileExists sql exec =
          (false, [])) ∧
      (fileExists = true →
        (SetupTables.setup_enhanced_bigquery_tables fileExists sql exec).2 =
            SetupTables.statementsOf sql ∧
        ((SetupTables.setup_enhanced_bigquery_tables fileExists sql exec).1 = true ↔
            ∃ j, j < (SetupTables.statementsOf sql).length ∧ exec j = true) ∧
        (∀ s ∈ SetupTables.statementsOf sql, s ≠ "")) := by
  intro fileExists sql exec
  constructor
  · intro h
    subst h
    rfl
  · intro h
    subst h
    refine ⟨?_, ?_, SetupTables.statementsOf_nonempty sql⟩
    · show (SetupTables.runStatements exec 0 (SetupTables.statementsOf sql)).2.2 = _
      exact SetupTables.runStatements_trace exec 0 _
    · show decide (0 < (SetupTables.runStatements exec 0 (SetupTables.statementsOf sql)).1) = true ↔ _
      rw [decide_eq_true_iff, SetupTables.runStatements_success_iff exec 0]
      simp

/-- C5 witness: a two-statement SQL text where only the first statement
succeeds. -/
theorem c5_witness :
    (SetupTables.setup_enhanced_bigquery_tables true
        "CREATE TABLE t1 (x INT64);; SELECT 1 " (fun i => i == 0)).2 =
      SetupTables.statementsOf "CREATE TABLE t1 (x INT64);; SELECT 1 " ∧
    SetupTables.statementsOf "CREATE TABLE t1 (x INT64);; SELECT 1 " =
      ["CREATE TABLE t1 (x INT64)", "SELECT 1"] :=
  ⟨((c5_setup_behaviour true "CREATE TABLE t1 (x INT64);; SELECT 1 "
      (fun i => i == 0)).2 rfl).1, by decide⟩

/-- C6: JWT round-trip.  A token minted by `create_access_token` and checked
by `verify_token` before its expiry instant yields a payload that maps
`"type"` to `"access"` and agrees with the input claims on every key other
than `"exp"` and `"type"`; after the expiry instant, or under a different
key than the configured one, `verify_token` returns `None`. -/
theorem c6_jwt_roundtrip :
    ∀ (key : String) (defExp : Rat) (d : List (String × Json)) (now : Rat)
      (delta : Option Rat),
      (∀ t : Rat, t < now + delta.getD defExp →
        SecurityUtils.verify_token key
            (SecurityUtils.create_access_token key defExp d now delta) t =
          some (SecurityUtils.create_access_token key defExp d now delta).payload ∧
        lookupA "type"
            (SecurityUtils.create_access_token key defExp d now delta).payload =
          some (.str "access") ∧
        (∀ k2, k2 ≠ "exp" → k2 ≠ "type" →
          lookupA k2
              (SecurityUtils.create_access_token key defExp d now delta).payload =
            lookupA k2 d)) ∧
      (∀ t : Rat, now + delta.getD defExp < t →
        SecurityUtils.verify_token key
          (SecurityUtils.create_access_token key defExp d now delta) t = none) ∧
      (∀ (key2 : String) (t : Rat), key2 ≠ key →
        SecurityUtils.verify_token key2
          (SecurityUtils.create_access_token key defExp d now delta) t = none) := by
  intro key defExp d now delta
  have hexpire :
      (match delta with
        | some dd => now + dd
        | none => now + defExp) = now + delta.getD defExp := by
    cases delta <;> rfl
  have hpayload :
      (SecurityUtils.create_access_token key defExp d now delta).payload =
        setKeyA (setKeyA d "exp" (.num (now + delta.getD defExp))) "type"
          (.str "access") := by
    show (setKeyA (setKeyA d "exp" _) "type" (.str "access")) = _
    rw [hexpire]
  have hexp :
      lookupA "exp"
          (SecurityUtils.create_access_token key defExp d now delta).payload =
        some (.num (now + delta.getD defExp)) := by
    rw [hpayload, lookupA_setKeyA_ne _ _ _ _ (by decide), lookupA_setKeyA_self]
  have hkey : (SecurityUtils.create_access_token key defExp d now delta).signKey
      = key := rfl
  have hverify : ∀ t2 : Rat,
      SecurityUtils.verify_token key
          (SecurityUtils.create_access_token key defExp d now delta) t2 =
        if now + delta.getD defExp < t2 then none
        else some (SecurityUtils.create_access_token key defExp d now delta).payload := by
    intro t2
    unfold SecurityUtils.verify_token
    rw [if_pos hkey, hexp]
  refine ⟨?_, ?_, ?_⟩
  · intro t ht
    refine ⟨?_, ?_, ?_⟩
    · rw [hverify t, if_neg (not_lt_of_gt ht)]
    · rw [hpayload, lookupA_setKeyA_self]
    · intro k2 hk2e hk2t
      rw [hpayload, lookupA_setKeyA_ne _ _ _ _ (Ne.symm hk2t),
        lookupA_setKeyA_ne _ _ _ _ (Ne.symm hk2e)]
  · intro t ht
    rw [hverify t, if_pos ht]
  · intro key2 t hne
    unfold SecurityUtils.verify_token
    rw [if_neg]
    intro h0
    exact hne (hkey ▸ h0).symm

/-- C6 witness: the claims of tests/test_security.py
(`{"sub": "test@example.com", "role": "user"}`), default 30-minute expiry
minted at instant 0, checked at instants 10 (valid), 31 (expired) and under
the key `"other"`. -/
theorem c6_witness :
    SecurityUtils.verify_token "k"
        (SecurityUtils.create_access_token "k" 30
          [("sub", .str "test@example.com"), ("role", .str "user")] 0 none) 10 =
      some (SecurityUtils.create_access_token "k" 30
        [("sub", .str "test@example.com"), ("role", .str "user")] 0 none).payload ∧
    lookupA "sub"
        (SecurityUtils.create_access_token "k" 30
          [("sub", .str "test@example.com"), ("role", .str "user")] 0 none).payload =
      some (.str "test@example.com") ∧
    SecurityUtils.verify_token "k"
        (SecurityUtils.create_access_token "k" 30
          [("sub", .str "test@example.com"), ("role", .str "user")] 0 none) 31 =
      none ∧
    SecurityUtils.verify_token "other"
        (SecurityUtils.create_access_token "k" 30
          [("sub", .str "test@example.com"), ("role", .str "user")] 0 none) 31 =
      none := by
  have h := c6_jwt_roundtrip "k" 30
    [("sub", .str "test@example.com"), ("role", .str "user")] 0 none
  have h10 := h.1 10 (by norm_num)
  refine ⟨h10.1, ?_, h.2.1 31 (by norm_num), h.2.2 "other" 31 (by decide)⟩
  have hsub := h10.2.2 "sub" (by decide) (by decide)
  rw [hsub]
  rfl

/-- C7, counterexample: the claim says verification fails for every pair of
distinct passwords, but bcrypt (the scheme behind
`SecurityUtils.hash_password`) truncates the password to its first 72 bytes:
two 73-character passwords differing only in the last character verify
against each other's hashes. -/
theorem c7_counterexample :
    String.mk (List.replicate 72 'a' ++ ['b']) ≠
        String.mk (List.replicate 72 'a' ++ ['c']) ∧
    SecurityUtils.verify_password (String.mk (List.replicate 72 'a' ++ ['c']))
        (SecurityUtils.hash_password 0 (String.mk (List.replicate 72 'a' ++ ['b']))) =
      true := by
  constructor
  · decide
  · decide

/-- C7, amended: `verify_password(p, hash_password(p))` always holds, and
for distinct passwords whose UTF-8 encodings are at most 72 bytes long
(below bcrypt's truncation threshold) `verify_password(q, hash_password(p))`
is `False`. -/
theorem c7_password_hashing :
    ∀ (salt : Nat) (p q : String),
      SecurityUtils.verify_password p (SecurityUtils.hash_password salt p) = true ∧
      (p ≠ q → (pyEncodeUtf8 p).length ≤ 72 → (pyEncodeUtf8 q).length ≤ 72 →
        SecurityUtils.verify_password q (SecurityUtils.hash_password salt p) =
          false) := by
  intro salt p q
  constructor
  · simp [SecurityUtils.verify_password, SecurityUtils.hash_password]
  · intro hne hp hq
    simp only [SecurityUtils.verify_password, SecurityUtils.hash_password,
      List.take_of_length_le hp, List.take_of_length_le hq,
      beq_eq_false_iff_ne, ne_eq]
    intro h0
    exact hne (pyEncodeUtf8_inj q p h0).symm

/-- C7 witness: the password of tests/test_security.py and a wrong
password, both far below 72 bytes. -/
theorem c7_witness :
    SecurityUtils.verify_password "test_password_123"
        (SecurityUtils.hash_password 0 "test_password_123") = true ∧
    SecurityUtils.verify_password "wrong_password"
        (SecurityUtils.hash_password 0 "test_password_123") = false :=
  ⟨(c7_password_hashing 0 "test_password_123" "wrong_password").1,
   (c7_password_hashing 0 "test_password_123" "wrong_password").2
     (by decide) (by decide) (by decide)⟩

/-- Evaluation of the category aggregation on the mock products:
Electronics sums the iPhone and MacBook revenues, the other two categories
hold one product each. -/
theorem categoriesOf_mock_eval :
    Mock.categoriesOf Mock.MOCK_PRODUCT_DATA =
      [("Electronics", ⟨70000, 2, 35000⟩),
       ("Clothing", ⟨15000, 1, 15000⟩),
       ("Home & Garden", ⟨12000, 1, 12000⟩)] := by
  simp only [Mock.categoriesOf, Mock.MOCK_PRODUCT_DATA, Mock.categoriesStep,
    Mock.updateA, lookupA, List.foldl]
  norm_num
  simp

/-- C8: in the mapping returned by `/api/test/categories`, every category
entry has at least one product and `avg_price = total_revenue / products`;
each entry's `total_revenue` is the sum of the revenues of the
`MOCK_PRODUCT_DATA` entries of that category; and the `products` counts sum
to `len(MOCK_PRODUCT_DATA)`. -/
theorem c8_categories_invariants :
    (∀ e ∈ Mock.categoriesOf Mock.MOCK_PRODUCT_DATA,
      1 ≤ e.2.products ∧
      e.2.avg_price = e.2.total_revenue / (e.2.products : Rat) ∧
      e.2.total_revenue =
        ((Mock.MOCK_PRODUCT_DATA.filter (fun p => p.category == e.1)).map
          (fun p => p.revenue)).sum) ∧
    ((Mock.categoriesOf Mock.MOCK_PRODUCT_DATA).map (fun e => e.2.products)).sum =
      Mock.MOCK_PRODUCT_DATA.length := by
  constructor
  · intro e he
    rw [categoriesOf_mock_eval] at he
    simp only [List.mem_cons, List.not_mem_nil, or_false] at he
    rcases he with rfl | rfl | rfl
    · refine ⟨by norm_num, by norm_num, ?_⟩
      simp [Mock.MOCK_PRODUCT_DATA]
      norm_num
    · refine ⟨by norm_num, by norm_num, ?_⟩
      simp [Mock.MOCK_PRODUCT_DATA]
    · refine ⟨by norm_num, by norm_num, ?_⟩
      simp [Mock.MOCK_PRODUCT_DATA]
  · rw [categoriesOf_mock_eval]
    simp [Mock.MOCK_PRODUCT_DATA]

/-- C8 witness: the Electronics entry. -/
theorem c8_witness :
    1 ≤ (Mock.CatStats.mk 70000 2 35000).products ∧
    (Mock.CatStats.mk 70000 2 35000).avg_price =
      (Mock.CatStats.mk 70000 2 35000).total_revenue /
        ((Mock.CatStats.mk 70000 2 35000).products : Rat) ∧
    (Mock.CatStats.mk 70000 2 35000).total_revenue =
      ((Mock.MOCK_PRODUCT_DATA.filter
          (fun p => p.category == "Electronics")).map (fun p => p.revenue)).sum :=
  c8_categories_invariants.1 ("Electronics", Mock.CatStats.mk 70000 2 35000)
    (by rw [categoriesOf_mock_eval]; simp)

/-- C9: `safe_api_call` never raises: a value `v` becomes a success result
whose `unwrap` returns it, an exception becomes a failure result; `unwrap`
raises `ValueError` exactly when `success` is false, and `unwrap_or` returns
the data on success and the default otherwise. -/
theorem c9_safe_api_call :
    ∀ (α : Type) (funcName : String) (outcome : Except String α)
      (r : DebugUtils.SafeAPIResult α) (default : Option α),
      (∀ v, outcome = .ok v →
        (DebugUtils.safe_api_call funcName outcome).success = true ∧
        (DebugUtils.safe_api_call funcName outcome).unwrap = .ok (some v)) ∧
      (∀ e, outcome = .error e →
        (DebugUtils.safe_api_call funcName outcome).success = false) ∧
      ((∃ msg, r.unwrap = .error msg) ↔ r.success = false) ∧
      (r.success = true → r.unwrap_or default = r.data) ∧
      (r.success = false → r.unwrap_or default = default) := by
  intro α funcName outcome r default
  refine ⟨?_, ?_, ?_, ?_, ?_⟩
  · intro v hv
    subst hv
    exact ⟨rfl, rfl⟩
  · intro e he
    subst he
    rfl
  · unfold DebugUtils.SafeAPIResult.unwrap
    cases hs : r.success with
    | false => simp
    | true => simp
  · intro hs
    unfold DebugUtils.SafeAPIResult.unwrap_or
    rw [if_pos hs]
  · intro hs
    unfold DebugUtils.SafeAPIResult.unwrap_or
    rw [if_neg (by rw [hs]; exact Bool.false_ne_true)]

/-- C9 witness: a call returning 3, a call raising, and a failure result
with a default. -/
theorem c9_witness :
    (DebugUtils.safe_api_call "fetch" (Except.ok 3)).unwrap = .ok (some 3) ∧
    (DebugUtils.safe_api_call "fetch"
        (Except.error "boom" : Except String Nat)).success = false ∧
    (DebugUtils.SafeAPIResult.mkError "boom" :
        DebugUtils.SafeAPIResult Nat).unwrap_or (some 7) = some 7 :=
  ⟨((c9_safe_api_call Nat "fetch" (Except.ok 3)
      (DebugUtils.SafeAPIResult.mkError "boom") (some 7)).1 3 rfl).2,
   (c9_safe_api_call Nat "fetch" (Except.error "boom")
      (DebugUtils.SafeAPIResult.mkError "boom") (some 7)).2.1 "boom" rfl,
   (c9_safe_api_call Nat "fetch" (Except.error "boom")
      (DebugUtils.SafeAPIResult.mkError "boom") (some 7)).2.2.2.2 rfl⟩

theorem dropWhile_zero_replicate (k : Nat) (l : List Nat) :
    List.dropWhile (· == 0) (List.replicate k 0 ++ l) =
      List.dropWhile (· == 0) l := by
  induction k with
  | zero => simp
  | succ k ih => simp [List.replicate_succ, List.dropWhile_cons, ih]

theorem rstripZeros_pad (bs : List Nat) (k : Nat) (hb : ∀ b ∈ bs, b ≠ 0) :
    DebugUtils.rstripZeros (bs ++ List.replicate k 0) = bs := by
  unfold DebugUtils.rstripZeros
  rw [List.reverse_append, List.reverse_replicate, dropWhile_zero_replicate]
  have h2 : List.dropWhile (· == 0) bs.reverse = bs.reverse := by
    cases hr : bs.reverse with
    | nil => rfl
    | cons h t =>
      have hmem : h ∈ bs := by
        rw [← List.mem_reverse, hr]
        exact List.mem_cons_self _ _
      have hh : (h == 0) = false := by simpa using hb h hmem
      rw [List.dropWhile_cons, hh]
      simp
  rw [h2, List.reverse_reverse]

/-- C10: magic-number framing round-trips.  For an operation string whose
UTF-8 encoding has at most 16 bytes, none of them zero,
`validate_magic_numbers(insert_magic_numbers(data, op), op)` holds with
debugging enabled; with debugging disabled both functions are pass-throughs
(`data` unchanged, `True`). -/
theorem c10_magic_roundtrip :
    ∀ (data : List Nat) (operation : String),
      (pyEncodeUtf8 operation).length ≤ 16 →
      (∀ b ∈ pyEncodeUtf8 operation, b ≠ 0) →
      DebugUtils.validate_magic_numbers true
          (DebugUtils.insert_magic_numbers true data operation) operation = true ∧
      DebugUtils.insert_magic_numbers false data operation = data ∧
      DebugUtils.validate_magic_numbers false data operation = true := by
  intro data op hlen hnz
  refine ⟨?_, rfl, rfl⟩
  have htake : (pyEncodeUtf8 op).take 16 = pyEncodeUtf8 op :=
    List.take_of_length_le hlen
  have hins : DebugUtils.insert_magic_numbers true data op =
      [0xCD, 0xCD, 0xCD, 0xCD] ++
        ((pyEncodeUtf8 op ++ List.replicate (16 - (pyEncodeUtf8 op).length) 0) ++
          (data ++ [0xAB, 0xAB, 0xAB, 0xAB])) := by
    simp [DebugUtils.insert_magic_numbers, htake]
  have hpadlen :
      (pyEncodeUtf8 op ++ List.replicate (16 - (pyEncodeUtf8 op).length) 0).length
        = 16 := by
    simp only [List.length_append, List.length_replicate]
    omega
  have hflen : (DebugUtils.insert_magic_numbers true data op).length =
      24 + data.length := by
    rw [hins]
    simp only [List.length_append, List.length_cons, List.length_nil, hpadlen]
    omega
  unfold DebugUtils.validate_magic_numbers
  have hcond : (!true || decide
      ((DebugUtils.insert_magic_numbers true data op).length < 24)) = false := by
    simp only [Bool.not_true, Bool.false_or, decide_eq_false_iff_not, hflen]
    omega
  rw [hcond]
  simp only [Bool.false_eq_true, if_false]
  rw [hins, List.take_left' (by rfl), List.drop_left' (by rfl),
    List.take_left' hpadlen, rstripZeros_pad _ _ hnz]
  simp

/-- C10 witness: framing three bytes under the operation name
`"bigquery_query"` (14 UTF-8 bytes, none zero). -/
theorem c10_witness :
    DebugUtils.validate_magic_numbers true
        (DebugUtils.insert_magic_numbers true [1, 2, 3] "bigquery_query")
        "bigquery_query" = true ∧
    DebugUtils.insert_magic_numbers false [1, 2, 3] "bigquery_query" =
      [1, 2, 3] :=
  ⟨(c10_magic_roundtrip [1, 2, 3] "bigquery_query" (by decide) (by decide)).1,
   (c10_magic_roundtrip [1, 2, 3] "bigquery_query" (by decide) (by decide)).2.1⟩
